import Mathlib

/-!
Verification of the media-ingestion pipeline and range-aware content server of a
multi-tenant video-management service. The definitions below are a shallow
embedding of the JavaScript source: `processVideo` / `startProcessing` /
`simulateAISensitivityScan` (services/processing.service.js), the streaming
controller `streamVideo` and the record controllers `getVideoById` /
`updateProcessingStatus` (videoController / streaming controller), and the
Mongoose `Video` schema. Database saves are modelled as updates of a partial map
from identifiers to records; each pipeline run additionally produces the ordered
trace of its persistence writes and Socket.io broadcast emissions so that
ordering properties (persist-before-announce, status sequences) can be stated.
-/

namespace VideoSaaS

/- ---------------------------------------------------------------------------
JavaScript string primitives, modelled over lists of characters.
--------------------------------------------------------------------------- -/

/-- Anchor test `hasLead hay pat`: `pat` is an initial segment of `hay` (the anchor test
used by substring search and by first-occurrence replacement). -/
def hasLead : List Char → List Char → Bool
  | _, [] => true
  | [], _ :: _ => false
  | a :: as, b :: bs => (a == b) && hasLead as bs

/-- JS `String.prototype.includes`: does `needle` occur as a contiguous
substring of `hay`? -/
def strIncludes : List Char → List Char → Bool
  | [], needle => needle.isEmpty
  | h :: t, needle => hasLead (h :: t) needle || strIncludes t needle

/-- Remove the first occurrence of `pat` from `hay`: JS
`hay.replace(/pat/, '')` with a literal pattern (only the first match is
replaced). -/
def removeFirst : List Char → List Char → List Char
  | [], _ => []
  | h :: t, pat =>
    if hasLead (h :: t) pat then (h :: t).drop pat.length
    else h :: removeFirst t pat

/-- JS `String.prototype.toLowerCase` (over the character range relevant to
the configured keyword list). -/
def jsToLower (s : String) : String :=
  String.mk (s.data.map Char.toLower)

/-- JS `hay.includes(needle)` on strings. -/
def jsIncludes (hay needle : String) : Bool :=
  strIncludes hay.data needle.data

/-- Longest digit prefix of a character list. -/
def takeDigits : List Char → List Char
  | [] => []
  | c :: t => if c.isDigit then c :: takeDigits t else []

/-- Decimal value of a digit list. -/
def digitsToNat (ds : List Char) : Nat :=
  ds.foldl (fun acc c => acc * 10 + (c.toNat - 48)) 0

/-- JS `parseInt(s, 10)` over a character list: skip leading whitespace, read
an optional sign and then the longest digit prefix; `none` models `NaN`
(no digits found). -/
def jsParseIntChars (s : List Char) : Option Int :=
  let cs := s.dropWhile Char.isWhitespace
  let signAndRest : Int × List Char :=
    match cs with
    | '-' :: r => (-1, r)
    | '+' :: r => (1, r)
    | r => (1, r)
  let ds := takeDigits signAndRest.2
  if ds.isEmpty then none else some (signAndRest.1 * (digitsToNat ds : Int))

/-- JS `parseInt(s, 10)` on strings. -/
def jsParseInt (s : String) : Option Int :=
  jsParseIntChars s.data

/-- JS `String.prototype.split` with a single-character separator:
`splitOnChar "0-99".data '-' = ["0".data, "99".data]`, and the empty string
splits to one empty part. -/
def splitOnChar : List Char → Char → List (List Char)
  | [], _ => [[]]
  | c :: t, sep =>
    if c == sep then [] :: splitOnChar t sep
    else
      match splitOnChar t sep with
      | [] => [[c]]
      | h :: r => (c :: h) :: r

/- ---------------------------------------------------------------------------
Data model (Mongoose `Video` schema, principals, database, file store).
--------------------------------------------------------------------------- -/

/-- The `processingStatus` enum of the `Video` schema. -/
inductive ProcessingStatus
  | PENDING
  | PROCESSING
  | COMPLETED
  | FLAGGED
deriving DecidableEq, Repr

/-- User roles. -/
inductive Role
  | ADMIN
  | EDITOR
  | VIEWER
deriving DecidableEq, Repr

/-- The `metadata` subdocument of the `Video` schema. -/
structure VideoMetadata where
  width : Option Nat
  height : Option Nat
  bitrate : Option Nat
  codec : Option String
  frameRate : Option Nat
deriving DecidableEq, Repr

/-- A `Video` document (the fields the pipeline and the content server touch;
identifiers are modelled as naturals). -/
structure Video where
  id : Nat
  title : String
  originalFilename : String
  filePath : String
  fileSize : Nat
  mimeType : String
  duration : Option Nat
  processingStatus : ProcessingStatus
  processingError : Option String
  metadata : Option VideoMetadata
  tenantId : Nat
  uploadedBy : Nat
  isPublic : Bool
  views : Nat
deriving DecidableEq, Repr

/-- An authenticated request identity (`req.user` after the auth middleware,
or the identity resolved from the one-shot query token: both paths yield the
same triple and apply identical policy). -/
structure Principal where
  id : Nat
  role : Role
  tenantId : Nat
deriving DecidableEq, Repr

/-- The video collection, keyed by document id. -/
def DB : Type := Nat → Option Video

/-- Model of `document.save()`: persist `v` under the key it was fetched by. -/
def dbSave (db : DB) (key : Nat) (v : Video) : DB :=
  fun j => if j = key then some v else db j

/-- The file store: path to file contents (a list of bytes). -/
def FS : Type := String → Option (List Nat)

/- ---------------------------------------------------------------------------
Classification analyzer (`simulateAISensitivityScan`).
--------------------------------------------------------------------------- -/

/-- Scan outcome status strings. -/
inductive ScanStatus
  | FLAGGED
  | SAFE
deriving DecidableEq, Repr

/-- Result of the sensitivity scan. -/
structure ScanResult where
  status : ScanStatus
  reason : Option String
deriving DecidableEq, Repr

/-- The configured disallowed-term list (`SENSITIVITY_KEYWORDS`). -/
def SENSITIVITY_KEYWORDS : List String :=
  ["test_flag", "flag", "sensitive", "nsfw", "explicit"]

/-- The detail text produced for a keyword match. -/
def keywordReason (kw : String) : String :=
  "Sensitivity keyword detected: \"" ++ kw ++ "\""

/-- The `.find` over the keyword list: first keyword whose lowercase form is a
substring of the lowercased filename (the `.some` test in the source is this
`find` being successful). -/
def matchedKeyword (filename : String) : Option String :=
  SENSITIVITY_KEYWORDS.find? (fun kw => jsIncludes (jsToLower filename) (jsToLower kw))

/-- Model of `simulateAISensitivityScan(filename)`. The 10-second delay is irrelevant
to the result; `randomFlag` models the probabilistic draw
`Math.random() < 0.1`, which is consulted only when no keyword matches. -/
def simulateAISensitivityScan (filename : String) (randomFlag : Bool) : ScanResult :=
  match matchedKeyword filename with
  | some kw => ⟨ScanStatus.FLAGGED, some (keywordReason kw)⟩
  | none =>
    if randomFlag then
      ⟨ScanStatus.FLAGGED, some "AI analysis detected potential content issues"⟩
    else
      ⟨ScanStatus.SAFE, none⟩

/- ---------------------------------------------------------------------------
Pipeline coordinator (`processVideo` / `startProcessing`).
--------------------------------------------------------------------------- -/

/-- Result of a successful `ffprobe` run (`extractMetadata`); durations are
modelled as integers (the source applies `Math.round` before storing). -/
structure FFProbeMeta where
  duration : Nat
  width : Option Nat
  height : Option Nat
  bitrate : Option Nat
  codec : Option String
  frameRate : Option Nat
deriving DecidableEq, Repr

/-- The `metadata:` object attached to the 25% progress broadcast (duration,
resolution rendered from width and height, codec). -/
structure AnnouncedMeta where
  duration : Nat
  width : Option Nat
  height : Option Nat
  codec : Option String
deriving DecidableEq, Repr

/-- Extra data attached to a progress broadcast: the message, and whichever of
the metadata / scan-result / status fields the source includes at that stage. -/
structure Payload where
  message : String
  announcedMeta : Option AnnouncedMeta
  scanStatus : Option ScanStatus
  statusField : Option ProcessingStatus
deriving DecidableEq, Repr

/-- A message-only payload. -/
def msgOnly (m : String) : Payload := ⟨m, none, none, none⟩

/-- One observable step of a pipeline run: a database persistence
(`video.save()`) or a Socket.io broadcast to the tenant room
(`emitProgress` / `emitCompletion` / `emitError`). -/
inductive Action
  | persist (v : Video)
  | emitP (tenantId videoId : Nat) (progress : Nat) (stage : String) (pl : Payload)
  | emitC (tenantId videoId : Nat) (status : ProcessingStatus) (snapshot : Video)
  | emitE (tenantId videoId : Nat) (msg : String)
deriving DecidableEq, Repr

/-- The exceptions that can be thrown inside `processVideo`'s try block. -/
inductive RunError
  | videoNotFound
  | extractionFailed (msg : String)
deriving DecidableEq, Repr

/-- `error.message` of the corresponding throw. -/
def runErrorMessage : RunError → String
  | .videoNotFound => "Video not found"
  | .extractionFailed m => "Metadata extraction failed: " ++ m

/-- The catch block of `processVideo`: re-fetch the document, set it FLAGGED
with the error message when it exists, then emit the single failure event. -/
def catchHandler (db : DB) (videoId tenantId : Nat) (msg : String) : DB × List Action :=
  match db videoId with
  | some v =>
    let v' := { v with processingStatus := ProcessingStatus.FLAGGED,
                       processingError := some msg }
    (dbSave db videoId v', [Action.persist v', Action.emitE tenantId videoId msg])
  | none => (db, [Action.emitE tenantId videoId msg])

/-- The try block of `processVideo`. On a throw it returns the exception
together with the database state and trace accumulated so far; `probe` is the
outcome of `extractMetadata` on the video's file. -/
def processVideoTry (db : DB) (videoId tenantId : Nat)
    (probe : Except String FFProbeMeta) (randomFlag : Bool) :
    Except (RunError × DB × List Action) (DB × List Action) :=
  match db videoId with
  | none => Except.error (RunError.videoNotFound, db, [])
  | some video =>
    let v1 := { video with processingStatus := ProcessingStatus.PROCESSING }
    let db1 := dbSave db videoId v1
    let tr1 : List Action :=
      [Action.persist v1,
       Action.emitP tenantId videoId 0 "Initializing" (msgOnly "Video processing started"),
       Action.emitP tenantId videoId 10 "Extracting Metadata" (msgOnly "Analyzing video file...")]
    match probe with
    | Except.error m => Except.error (RunError.extractionFailed m, db1, tr1)
    | Except.ok md =>
      let v2 := { v1 with
        duration := some md.duration,
        metadata := some ⟨md.width, md.height, md.bitrate, md.codec, md.frameRate⟩ }
      let scanResult := simulateAISensitivityScan video.originalFilename randomFlag
      let v3 :=
        if scanResult.status = ScanStatus.FLAGGED then
          { v2 with processingStatus := ProcessingStatus.FLAGGED,
                    processingError :=
                      some (scanResult.reason.getD "Content flagged by AI analysis") }
        else
          { v2 with processingStatus := ProcessingStatus.COMPLETED }
      let db2 := dbSave db1 videoId v3
      Except.ok (db2,
        tr1 ++
        [Action.emitP tenantId videoId 25 "Metadata Extracted"
            ⟨"Video metadata extracted successfully",
             some ⟨md.duration, md.width, md.height, md.codec⟩, none, none⟩,
         Action.emitP tenantId videoId 30 "AI Sensitivity Scan"
            (msgOnly "Running AI content analysis..."),
         Action.emitP tenantId videoId 75 "AI Scan Complete"
            ⟨"Content analysis completed", none, some scanResult.status, none⟩,
         Action.emitP tenantId videoId 90 "Finalizing"
            (msgOnly "Finalizing video processing..."),
         Action.persist v3,
         Action.emitP tenantId videoId 100 "Completed"
            ⟨"Video processing completed", none, none, some v3.processingStatus⟩,
         Action.emitC tenantId videoId v3.processingStatus v3])

/-- Model of `processVideo(videoId, tenantId)`: the try block with every thrown
exception routed through the catch block, so the function itself never
raises. -/
def processVideo (db : DB) (videoId tenantId : Nat)
    (probe : Except String FFProbeMeta) (randomFlag : Bool) : DB × List Action :=
  match processVideoTry db videoId tenantId probe randomFlag with
  | Except.ok r => r
  | Except.error (e, db', tr) =>
    let handled := catchHandler db' videoId tenantId (runErrorMessage e)
    (handled.1, tr ++ handled.2)

/-- Model of `startProcessing(videoId, tenantId)`: fire-and-forget trigger. Its
`.catch` wrapper has nothing to catch since `processVideo` handles every
internal failure itself, so the trigger is the same total function. -/
def startProcessing (db : DB) (videoId tenantId : Nat)
    (probe : Except String FFProbeMeta) (randomFlag : Bool) : DB × List Action :=
  processVideo db videoId tenantId probe randomFlag

/-- The statuses carried by the persistence writes of a trace, in order. -/
def persistedStatuses (tr : List Action) : List ProcessingStatus :=
  tr.filterMap (fun a => match a with
    | Action.persist v => some v.processingStatus
    | _ => none)

/-- Dynamic data of `uploadVideo`'s `Video.create` call. -/
structure UploadArgs where
  newId : Nat
  title : String
  originalFilename : String
  filePath : String
  fileSize : Nat
  mimeType : String
  tenantId : Nat
  uploadedBy : Nat
  isPublic : Bool
deriving Repr

/-- The document created by `uploadVideo`: `processingStatus: 'PENDING'`,
no duration or metadata yet, zero views. -/
def createVideo (a : UploadArgs) : Video :=
  { id := a.newId, title := a.title, originalFilename := a.originalFilename,
    filePath := a.filePath, fileSize := a.fileSize, mimeType := a.mimeType,
    duration := none, processingStatus := ProcessingStatus.PENDING,
    processingError := none, metadata := none, tenantId := a.tenantId,
    uploadedBy := a.uploadedBy, isPublic := a.isPublic, views := 0 }

/-- Upload acceptance followed by the pipeline run it triggers:
`Video.create` persists the PENDING document, then `startProcessing` runs on
it. The returned trace starts with the creation write. -/
def uploadThenProcess (db : DB) (a : UploadArgs)
    (probe : Except String FFProbeMeta) (randomFlag : Bool) : DB × List Action :=
  let v := createVideo a
  let db1 := dbSave db a.newId v
  let run := startProcessing db1 a.newId a.tenantId probe randomFlag
  (run.1, Action.persist v :: run.2)

/- ---------------------------------------------------------------------------
Content server (`streamVideo`) and record controllers.
--------------------------------------------------------------------------- -/

/-- A JSON error body (`success`, `message`, and the status fields the
streaming controller sometimes includes). -/
structure JsonBody where
  success : Bool
  message : String
  processingStatus : Option ProcessingStatus
  processingError : Option String
deriving DecidableEq, Repr

/-- The response of the streaming endpoint. `ok200` is the full-content
response (`Content-Length`, `Content-Type`, `Accept-Ranges: bytes`);
`range206` is the 206 response with `Content-Range: bytes start-end/total`,
`Content-Length`, and the streamed byte span. -/
inductive Response
  | error (httpStatus : Nat) (body : JsonBody)
  | ok200 (contentLength : Nat) (contentType : String) (body : List Nat)
  | range206 (rangeStart rangeEnd : Int) (total : Nat) (contentLength : Int)
      (contentType : String) (body : List Nat)
deriving DecidableEq, Repr

/-- HTTP status code of a response. -/
def respStatus : Response → Nat
  | Response.error s _ => s
  | Response.ok200 .. => 200
  | Response.range206 .. => 206

/-- Content bytes served by a response (JSON error responses serve none). -/
def bodyBytes : Response → List Nat
  | Response.error .. => []
  | Response.ok200 _ _ b => b
  | Response.range206 _ _ _ _ _ b => b

/-- The 404 body used both for a nonexistent id and for every policy
rejection of the lookup query. -/
def notFoundResponse : Response :=
  Response.error 404 ⟨false, "Video not found or access denied", none, none⟩

/-- The `Video.findOne` query shared by the streaming and record controllers:
id match, tenant isolation, and the VIEWER `$or` restriction to public or
owned videos. -/
def findVideoQuery (db : DB) (u : Principal) (videoId : Nat) : Option Video :=
  match db videoId with
  | none => none
  | some v =>
    if (v.tenantId == u.tenantId)
        && (!(u.role == Role.VIEWER) || (v.isPublic || v.uploadedBy == u.id)) then
      some v
    else none

/-- The range-header parse of the streaming controller:
`parts = range.replace(/bytes=/, '').split('-')`,
`start = parseInt(parts[0])`,
`end = parts[1] ? parseInt(parts[1]) : fileSize - 1`
(an absent or empty second part is falsy and defaults). `none` models `NaN`. -/
def parseRangeParts (range : String) (fileSize : Nat) : Option Int × Option Int :=
  let parts := splitOnChar (removeFirst range.data "bytes=".data) '-'
  let rangeStart := jsParseIntChars (parts.headD [])
  let p1 := parts.getD 1 []
  let rangeEnd := if p1.isEmpty then some ((fileSize : Int) - 1) else jsParseIntChars p1
  (rangeStart, rangeEnd)

/-- JS `x >= y` where `x` may be `NaN` (modelled `none`): every comparison
with `NaN` is false. -/
def jsGE (x : Option Int) (y : Nat) : Bool :=
  match x with
  | some v => decide ((y : Int) ≤ v)
  | none => false

/-- JS `video.mimeType || 'video/mp4'`. -/
def mimeOrDefault (m : String) : String :=
  if m = "" then "video/mp4" else m

/-- The streaming controller after identity resolution (session or query
token; both yield a `Principal` and identical policy). Order of gates follows
the source: tenant/role-scoped lookup, FLAGGED gate, COMPLETED gate, file
existence, then byte-range handling. On the 206 path
`fs.createReadStream(path, {start, end})` throws `ERR_OUT_OF_RANGE` when
`start` or `end` is `NaN` or `start > end`, before any header is written.
The controller's catch turns that throw into the 500 error response. -/
def streamVideo (db : DB) (fsys : FS) (u : Principal) (videoId : Nat)
    (rangeHeader : Option String) : Response :=
  match findVideoQuery db u videoId with
  | none => notFoundResponse
  | some video =>
    if video.processingStatus = ProcessingStatus.FLAGGED then
      Response.error 403 ⟨false, "This video has been flagged and cannot be streamed",
                          some video.processingStatus, video.processingError⟩
    else if ¬ (video.processingStatus = ProcessingStatus.COMPLETED) then
      Response.error 403 ⟨false, "Video is still processing",
                          some video.processingStatus, none⟩
    else
      match fsys video.filePath with
      | none => Response.error 404 ⟨false, "Video file not found", none, none⟩
      | some content =>
        let fileSize := content.length
        match rangeHeader with
        | none => Response.ok200 fileSize (mimeOrDefault video.mimeType) content
        | some range =>
          let parsed := parseRangeParts range fileSize
          if jsGE parsed.1 fileSize || jsGE parsed.2 fileSize then
            Response.error 416 ⟨false, "Range Not Satisfiable", none, none⟩
          else
            match parsed.1, parsed.2 with
            | some s, some e =>
              if 0 ≤ s ∧ s ≤ e then
                Response.range206 s e fileSize (e - s + 1)
                  (mimeOrDefault video.mimeType)
                  ((content.drop s.toNat).take (e - s + 1).toNat)
              else
                Response.error 500 ⟨false, "Error streaming video", none, none⟩
            | _, _ => Response.error 500 ⟨false, "Error streaming video", none, none⟩

/-- Model of `getVideoById`: the same tenant/role-scoped lookup; on success the handler
increments the view counter and saves, with no check of the processing
status. -/
def getVideoById (db : DB) (u : Principal) (videoId : Nat) : DB × Option Video :=
  match findVideoQuery db u videoId with
  | none => (db, none)
  | some v =>
    let v' := { v with views := v.views + 1 }
    (dbSave db videoId v', some v')

/-- Model of `updateProcessingStatus` (route guarded by `authorize('ADMIN')`):
tenant-scoped lookup, then overwrite the status, and the error text only when
one is supplied (the JS truthiness guard `if (processingError)`). -/
def updateProcessingStatus (db : DB) (u : Principal) (videoId : Nat)
    (newStatus : ProcessingStatus) (newError : Option String) : DB × Option Video :=
  if ¬ (u.role = Role.ADMIN) then (db, none)
  else
    match db videoId with
    | none => (db, none)
    | some v =>
      if v.tenantId == u.tenantId then
        let v' := { v with processingStatus := newStatus,
                           processingError :=
                             match newError with
                             | some e => some e
                             | none => v.processingError }
        (dbSave db videoId v', some v')
      else (db, none)

/- ---------------------------------------------------------------------------
Trace observation helpers.
--------------------------------------------------------------------------- -/

/-- Is this action a broadcast (any emit)? -/
def isEmitAction : Action → Bool
  | Action.persist _ => false
  | _ => true

/-- Is this action a persistence write? -/
def isPersistAction : Action → Bool
  | Action.persist _ => true
  | _ => false

/-- Is this action one of the completion announcements (the 100% progress
broadcast or the completion broadcast)? -/
def isCompletionAnnounce : Action → Bool
  | Action.emitC .. => true
  | Action.emitP _ _ p _ _ => p == 100
  | _ => false

/-- Is this action the failure broadcast? -/
def isFailureEmit : Action → Bool
  | Action.emitE .. => true
  | _ => false

/-- The records persisted strictly before the first action satisfying `p`. -/
def persistsBefore (tr : List Action) (p : Action → Bool) : List Video :=
  (tr.takeWhile (fun a => !(p a))).filterMap (fun a => match a with
    | Action.persist v => some v
    | _ => none)

/-- The terminal statuses announced by completion events (the `status` field
of the 100% progress broadcast and of the completion broadcast), in order. -/
def announcedTerminalStatuses (tr : List Action) : List ProcessingStatus :=
  tr.filterMap (fun a => match a with
    | Action.emitP _ _ 100 _ pl => pl.statusField
    | Action.emitC _ _ st _ => some st
    | _ => none)

/-- The messages carried by failure broadcasts, in order. -/
def failureMessages (tr : List Action) : List String :=
  tr.filterMap (fun a => match a with
    | Action.emitE _ _ m => some m
    | _ => none)

/-- The terminal status a successful run computes for a video, given the
probabilistic draw: FLAGGED when the scan flags, else COMPLETED. -/
def runTerminal (video : Video) (randomFlag : Bool) : ProcessingStatus :=
  if (simulateAISensitivityScan video.originalFilename randomFlag).status = ScanStatus.FLAGGED
  then ProcessingStatus.FLAGGED
  else ProcessingStatus.COMPLETED

/-- The announce-before-persist discipline for extracted metadata, as the
specification states it: every progress broadcast carrying a metadata object
must be preceded in the trace by a persistence write whose record already
carries metadata. -/
def metaAnnounceOnlyPersisted (tr : List Action) : Prop :=
  ∀ i t v p st pl, tr.get? i = some (Action.emitP t v p st pl) →
    pl.announcedMeta ≠ none →
    ∃ j, j < i ∧ ∃ w, tr.get? j = some (Action.persist w) ∧ w.metadata ≠ none

/- ---------------------------------------------------------------------------
Concrete fixtures used by witnesses and counterexamples.
--------------------------------------------------------------------------- -/

/-- A concrete probe result. -/
def md0 : FFProbeMeta := ⟨120, some 1920, some 1080, some 5000, some "h264", some 30⟩

/-- A freshly uploaded public video, keyword-free filename, PENDING. -/
def cv0 : Video :=
  { id := 1, title := "t", originalFilename := "video.mp4", filePath := "/up/v1.mp4",
    fileSize := 1000, mimeType := "video/mp4", duration := none,
    processingStatus := ProcessingStatus.PENDING, processingError := none,
    metadata := none, tenantId := 7, uploadedBy := 3, isPublic := true, views := 0 }

/-- Store holding only `cv0`. -/
def db0 : DB := fun j => if j = 1 then some cv0 else none

/-- The same video already in PROCESSING. -/
def cvProc : Video := { cv0 with processingStatus := ProcessingStatus.PROCESSING }

/-- Store holding only `cvProc`. -/
def dbProc : DB := fun j => if j = 1 then some cvProc else none

/-- The same video COMPLETED. -/
def cvDone : Video := { cv0 with processingStatus := ProcessingStatus.COMPLETED }

/-- Store holding only `cvDone`. -/
def dbDone : DB := fun j => if j = 1 then some cvDone else none

/-- The same video FLAGGED with a detail. -/
def cvFlag : Video :=
  { cv0 with processingStatus := ProcessingStatus.FLAGGED,
             processingError := some "Sensitivity keyword detected: \"flag\"" }

/-- Store holding only `cvFlag`. -/
def dbFlag : DB := fun j => if j = 1 then some cvFlag else none

/-- A 1000-byte file at `cv0`'s path. -/
def fs0 : FS := fun p => if p = "/up/v1.mp4" then some (List.replicate 1000 0) else none

/-- An EDITOR of tenant 7. -/
def cu0 : Principal := ⟨3, Role.EDITOR, 7⟩

/-- A VIEWER of tenant 7 who is not the uploader. -/
def cuViewer : Principal := ⟨4, Role.VIEWER, 7⟩

/-- An EDITOR of a different tenant. -/
def cuOther : Principal := ⟨9, Role.EDITOR, 8⟩

/- ---------------------------------------------------------------------------
Helper lemmas about pipeline runs.
--------------------------------------------------------------------------- -/

theorem countP_persist_eq_length (tr : List Action) :
    tr.countP isPersistAction = (persistedStatuses tr).length := by
  induction tr with
  | nil => rfl
  | cons a t ih =>
    cases a <;> simp [persistedStatuses, List.countP_cons, isPersistAction, ih]

theorem persistedStatuses_cons_persist (v : Video) (l : List Action) :
    persistedStatuses (Action.persist v :: l) =
      v.processingStatus :: persistedStatuses l := rfl

theorem runTerminal_cases (video : Video) (randomFlag : Bool) :
    runTerminal video randomFlag = ProcessingStatus.COMPLETED ∨
    runTerminal video randomFlag = ProcessingStatus.FLAGGED := by
  unfold runTerminal
  split
  · exact Or.inr rfl
  · exact Or.inl rfl

theorem processVideo_statuses_ok (db : DB) (videoId tenantId : Nat) (randomFlag : Bool)
    (video : Video) (md : FFProbeMeta) (h : db videoId = some video) :
    persistedStatuses (processVideo db videoId tenantId (Except.ok md) randomFlag).2 =
      [ProcessingStatus.PROCESSING, runTerminal video randomFlag] := by
  cases hs : (simulateAISensitivityScan video.originalFilename randomFlag).status with
  | FLAGGED =>
    unfold processVideo processVideoTry runTerminal
    rw [h]
    simp [hs, persistedStatuses]
  | SAFE =>
    unfold processVideo processVideoTry runTerminal
    rw [h]
    simp [hs, persistedStatuses]

theorem processVideo_statuses_err (db : DB) (videoId tenantId : Nat) (randomFlag : Bool)
    (video : Video) (m : String) (h : db videoId = some video) :
    persistedStatuses (processVideo db videoId tenantId (Except.error m) randomFlag).2 =
      [ProcessingStatus.PROCESSING, ProcessingStatus.FLAGGED] := by
  unfold processVideo processVideoTry catchHandler
  rw [h]
  simp [dbSave, persistedStatuses]

/- ---------------------------------------------------------------------------
Claim theorems.
--------------------------------------------------------------------------- -/

/-- C1: for an artifact created by upload acceptance and run through the
pipeline, the sequence of persisted processingStatus values is exactly
PENDING, PROCESSING, COMPLETED or PENDING, PROCESSING, FLAGGED — the status
never moves backward and PROCESSING is never skipped, including when
metadata extraction fails (the error path). -/
theorem status_sequence_exact (db : DB) (a : UploadArgs)
    (probe : Except String FFProbeMeta) (randomFlag : Bool) :
    persistedStatuses (uploadThenProcess db a probe randomFlag).2 =
      [ProcessingStatus.PENDING, ProcessingStatus.PROCESSING, ProcessingStatus.COMPLETED] ∨
    persistedStatuses (uploadThenProcess db a probe randomFlag).2 =
      [ProcessingStatus.PENDING, ProcessingStatus.PROCESSING, ProcessingStatus.FLAGGED] := by
  have hdb : dbSave db a.newId (createVideo a) a.newId = some (createVideo a) := by
    simp [dbSave]
  have hup : (uploadThenProcess db a probe randomFlag).2 =
      Action.persist (createVideo a) ::
        (processVideo (dbSave db a.newId (createVideo a)) a.newId a.tenantId
          probe randomFlag).2 := rfl
  have hpend : (createVideo a).processingStatus = ProcessingStatus.PENDING := rfl
  cases probe with
  | error m =>
    right
    have h := processVideo_statuses_err (dbSave db a.newId (createVideo a))
      a.newId a.tenantId randomFlag (createVideo a) m hdb
    rw [hup, persistedStatuses_cons_persist, h, hpend]
  | ok md =>
    have h := processVideo_statuses_ok (dbSave db a.newId (createVideo a))
      a.newId a.tenantId randomFlag (createVideo a) md hdb
    rcases runTerminal_cases (createVideo a) randomFlag with ht | ht
    · left
      rw [hup, persistedStatuses_cons_persist, h, ht, hpend]
    · right
      rw [hup, persistedStatuses_cons_persist, h, ht, hpend]

/-- C9 amended: invoking start on an artifact whose persisted status is
already PROCESSING is neither rejected nor a no-op — `processVideo` contains
no re-entrancy guard, so the duplicate invocation runs all stages again and
writes the record twice (PROCESSING, then a terminal status). The only
mitigation is that the sole in-repo caller (`uploadVideo`) invokes
`startProcessing` exactly once, immediately after creating the artifact. -/
theorem duplicate_start_executes (db : DB) (videoId tenantId : Nat)
    (probe : Except String FFProbeMeta) (randomFlag : Bool) (video : Video)
    (hdb : db videoId = some video)
    (hst : video.processingStatus = ProcessingStatus.PROCESSING) :
    (persistedStatuses (startProcessing db videoId tenantId probe randomFlag).2 =
       [ProcessingStatus.PROCESSING, ProcessingStatus.COMPLETED] ∨
     persistedStatuses (startProcessing db videoId tenantId probe randomFlag).2 =
       [ProcessingStatus.PROCESSING, ProcessingStatus.FLAGGED]) ∧
    (startProcessing db videoId tenantId probe randomFlag).2.countP isPersistAction = 2 := by
  have hmain : persistedStatuses (startProcessing db videoId tenantId probe randomFlag).2 =
      [ProcessingStatus.PROCESSING, ProcessingStatus.COMPLETED] ∨
      persistedStatuses (startProcessing db videoId tenantId probe randomFlag).2 =
      [ProcessingStatus.PROCESSING, ProcessingStatus.FLAGGED] := by
    cases probe with
    | error m =>
      right
      exact processVideo_statuses_err db videoId tenantId randomFlag video m hdb
    | ok md =>
      have h := processVideo_statuses_ok db videoId tenantId randomFlag video md hdb
      rcases runTerminal_cases video randomFlag with ht | ht
      · left
        rw [startProcessing, h, ht]
      · right
        rw [startProcessing, h, ht]
  refine ⟨hmain, ?_⟩
  rw [countP_persist_eq_length]
  rcases hmain with h | h <;> simp [h]

/-- C9 falsified as stated: a start on an artifact already persisted as
PROCESSING is executed in full — it performs two persistence writes and
changes the stored record, rather than being rejected or a no-op. -/
theorem duplicate_start_writes_cex :
    dbProc 1 = some cvProc ∧
    cvProc.processingStatus = ProcessingStatus.PROCESSING ∧
    (startProcessing dbProc 1 7 (Except.ok md0) false).2.countP isPersistAction = 2 ∧
    (startProcessing dbProc 1 7 (Except.ok md0) false).1 1 ≠ some cvProc := by
  refine ⟨rfl, rfl, by decide, by decide⟩

/-- C9 witness for the amended theorem, at a concrete PROCESSING artifact. -/
theorem duplicate_start_executes_witness :
    dbProc 1 = some cvProc ∧
    cvProc.processingStatus = ProcessingStatus.PROCESSING ∧
    persistedStatuses (startProcessing dbProc 1 7 (Except.ok md0) false).2 =
      [ProcessingStatus.PROCESSING, ProcessingStatus.COMPLETED] := by
  refine ⟨rfl, rfl, ?_⟩
  have h := (duplicate_start_executes dbProc 1 7 (Except.ok md0) false cvProc rfl rfl).1
  rcases h with h | h
  · exact h
  · exact absurd h (by decide)

/-- C7: a display name containing a configured disallowed term as a
case-insensitive substring is classified FLAGGED with a detail naming the
matched term, regardless of the probabilistic draw, and a run over such an
artifact persists that FLAGGED status and detail. -/
theorem keyword_flagging_deterministic (db : DB) (videoId tenantId : Nat)
    (md : FFProbeMeta) (randomFlag : Bool) (video : Video) (kw : String)
    (hdb : db videoId = some video)
    (hkw : matchedKeyword video.originalFilename = some kw) :
    kw ∈ SENSITIVITY_KEYWORDS ∧
    jsIncludes (jsToLower video.originalFilename) (jsToLower kw) = true ∧
    simulateAISensitivityScan video.originalFilename randomFlag =
      ⟨ScanStatus.FLAGGED, some (keywordReason kw)⟩ ∧
    (processVideo db videoId tenantId (Except.ok md) randomFlag).1 videoId =
      some { video with
        duration := some md.duration,
        metadata := some ⟨md.width, md.height, md.bitrate, md.codec, md.frameRate⟩,
        processingStatus := ProcessingStatus.FLAGGED,
        processingError := some (keywordReason kw) } := by
  have hmem := List.mem_of_find?_eq_some hkw
  have hpred := List.find?_some hkw
  have hscan : simulateAISensitivityScan video.originalFilename randomFlag =
      ⟨ScanStatus.FLAGGED, some (keywordReason kw)⟩ := by
    unfold simulateAISensitivityScan
    rw [hkw]
  refine ⟨hmem, hpred, hscan, ?_⟩
  unfold processVideo processVideoTry
  rw [hdb]
  simp [hscan, dbSave]

/-- C7 witness: the concrete display name `My_FLAG_video.mp4` matches the
configured term `flag` case-insensitively and the run persists FLAGGED with
the detail naming it. -/
theorem keyword_flagging_deterministic_witness :
    matchedKeyword "My_FLAG_video.mp4" = some "flag" ∧
    (processVideo
        (fun j => if j = 1 then some { cv0 with originalFilename := "My_FLAG_video.mp4" } else none)
        1 7 (Except.ok md0) true).1 1 =
      some { cv0 with
        originalFilename := "My_FLAG_video.mp4",
        duration := some md0.duration,
        metadata := some ⟨md0.width, md0.height, md0.bitrate, md0.codec, md0.frameRate⟩,
        processingStatus := ProcessingStatus.FLAGGED,
        processingError := some (keywordReason "flag") } := by
  refine ⟨by decide, ?_⟩
  exact (keyword_flagging_deterministic
    (fun j => if j = 1 then some { cv0 with originalFilename := "My_FLAG_video.mp4" } else none)
    1 7 md0 true { cv0 with originalFilename := "My_FLAG_video.mp4" } "flag"
    rfl (by decide)).2.2.2

/-- C8 amended: `start` never raises back to its caller (`processVideo`
routes every thrown exception through its catch block and is a total
function); a failing run broadcasts exactly one failure event carrying the
error message, and, whenever the artifact record exists when the catch block
re-fetches it, the record is persisted FLAGGED with the error message as
detail. When the failure is the artifact lookup itself, there is no record
to convert: the failure event is still broadcast but nothing is persisted. -/
theorem failure_conversion (db : DB) (videoId tenantId : Nat)
    (probe : Except String FFProbeMeta) (randomFlag : Bool)
    (e : RunError) (db' : DB) (tr : List Action)
    (h : processVideoTry db videoId tenantId probe randomFlag =
      Except.error (e, db', tr)) :
    failureMessages (processVideo db videoId tenantId probe randomFlag).2 =
      [runErrorMessage e] ∧
    (∀ v, db' videoId = some v →
      (processVideo db videoId tenantId probe randomFlag).1 videoId =
        some { v with processingStatus := ProcessingStatus.FLAGGED,
                      processingError := some (runErrorMessage e) }) := by
  have htr : failureMessages tr = [] := by
    cases hdb : db videoId with
    | none =>
      simp [processVideoTry, hdb] at h
      rw [h.2.2]
      rfl
    | some video =>
      cases probe with
      | ok md => simp [processVideoTry, hdb] at h
      | error m =>
        simp [processVideoTry, hdb] at h
        rw [← h.2.2]
        rfl
  constructor
  · unfold processVideo
    rw [h]
    cases hdb' : db' videoId with
    | none =>
      simp [catchHandler, hdb', failureMessages]
      simpa [failureMessages] using htr
    | some v =>
      simp [catchHandler, hdb', failureMessages]
      simpa [failureMessages] using htr
  · intro v hv
    unfold processVideo
    rw [h]
    simp [catchHandler, hv, dbSave]

/-- C8 falsified as stated: with an empty store, the run fails on the
artifact lookup; the failure is caught and the single failure event is
broadcast, but no record is persisted at all, so the failure is not
converted into any persisted FLAGGED terminal status. -/
theorem lookup_failure_no_flag_persisted_cex :
    processVideoTry (fun _ => none) 1 7 (Except.ok md0) false =
      Except.error (RunError.videoNotFound, (fun _ => none), []) ∧
    (processVideo (fun _ => none) 1 7 (Except.ok md0) false).2 =
      [Action.emitE 7 1 "Video not found"] ∧
    (processVideo (fun _ => none) 1 7 (Except.ok md0) false).2.countP isPersistAction = 0 ∧
    (processVideo (fun _ => none) 1 7 (Except.ok md0) false).1 1 = none := by
  exact ⟨rfl, rfl, rfl, rfl⟩

/-- C8 witness for the amended theorem: a concrete extraction failure is
converted into a persisted FLAGGED record carrying the message, with a
single failure broadcast. -/
theorem failure_conversion_witness :
    failureMessages (processVideo db0 1 7 (Except.error "boom") false).2 =
      ["Metadata extraction failed: boom"] ∧
    (processVideo db0 1 7 (Except.error "boom") false).1 1 =
      some { cv0 with processingStatus := ProcessingStatus.FLAGGED,
                      processingError := some "Metadata extraction failed: boom" } := by
  have h := failure_conversion db0 1 7 (Except.error "boom") false
    (RunError.extractionFailed "boom")
    (dbSave db0 1 { cv0 with processingStatus := ProcessingStatus.PROCESSING })
    [Action.persist { cv0 with processingStatus := ProcessingStatus.PROCESSING },
     Action.emitP 7 1 0 "Initializing" (msgOnly "Video processing started"),
     Action.emitP 7 1 10 "Extracting Metadata" (msgOnly "Analyzing video file...")]
    rfl
  refine ⟨h.1, ?_⟩
  have h2 := h.2 { cv0 with processingStatus := ProcessingStatus.PROCESSING }
    (by simp [dbSave])
  exact h2

/-- C2 amended: every pipeline run persists PROCESSING before its first
broadcast; on the success path the terminal status is persisted before the
100% progress and completion events, and both events announce exactly that
status; on the extraction-error path FLAGGED is persisted before the failure
event, which carries the error message. (The extracted metadata announced in
the 25% progress broadcast, by contrast, is persisted only at the finalize
save — see the counterexample.) -/
theorem broadcast_persistence_order (db : DB) (videoId tenantId : Nat)
    (probe : Except String FFProbeMeta) (randomFlag : Bool) (video : Video)
    (hdb : db videoId = some video) :
    (processVideo db videoId tenantId probe randomFlag).2.takeWhile
        (fun a => !(isEmitAction a)) =
      [Action.persist { video with processingStatus := ProcessingStatus.PROCESSING }] ∧
    (∀ md, probe = Except.ok md →
      (persistsBefore (processVideo db videoId tenantId probe randomFlag).2
          isCompletionAnnounce).map Video.processingStatus =
        [ProcessingStatus.PROCESSING, runTerminal video randomFlag] ∧
      announcedTerminalStatuses (processVideo db videoId tenantId probe randomFlag).2 =
        [runTerminal video randomFlag, runTerminal video randomFlag]) ∧
    (∀ m, probe = Except.error m →
      (persistsBefore (processVideo db videoId tenantId probe randomFlag).2
          isFailureEmit).map Video.processingStatus =
        [ProcessingStatus.PROCESSING, ProcessingStatus.FLAGGED] ∧
      failureMessages (processVideo db videoId tenantId probe randomFlag).2 =
        ["Metadata extraction failed: " ++ m]) := by
  refine ⟨?_, ?_, ?_⟩
  · cases probe with
    | error m =>
      unfold processVideo processVideoTry catchHandler
      rw [hdb]
      simp [dbSave, isEmitAction]
    | ok md =>
      unfold processVideo processVideoTry
      rw [hdb]
      simp [isEmitAction]
  · intro md hp
    subst hp
    cases hs : (simulateAISensitivityScan video.originalFilename randomFlag).status with
    | FLAGGED =>
      unfold processVideo processVideoTry runTerminal
      rw [hdb]
      simp [hs, persistsBefore, isCompletionAnnounce, announcedTerminalStatuses]
    | SAFE =>
      unfold processVideo processVideoTry runTerminal
      rw [hdb]
      simp [hs, persistsBefore, isCompletionAnnounce, announcedTerminalStatuses]
  · intro m hp
    subst hp
    unfold processVideo processVideoTry catchHandler
    rw [hdb]
    simp [dbSave, persistsBefore, isFailureEmit, failureMessages, runErrorMessage]

/-- C2 falsified as stated: in a concrete successful run, the 25% progress
broadcast announces the extracted metadata, yet no persistence write before
it carries any metadata — the metadata is only persisted by the finalize
save that follows. -/
theorem metadata_announced_before_persist_cex :
    ¬ metaAnnounceOnlyPersisted (processVideo db0 1 7 (Except.ok md0) false).2 := by
  intro h
  obtain ⟨j, hj, w, hw, hm⟩ := h 3 7 1 25 "Metadata Extracted"
    ⟨"Video metadata extracted successfully",
     some ⟨120, some 1920, some 1080, some "h264"⟩, none, none⟩ rfl (by simp)
  interval_cases j
  · have h0 : (processVideo db0 1 7 (Except.ok md0) false).2.get? 0 =
        some (Action.persist { cv0 with processingStatus := ProcessingStatus.PROCESSING }) := rfl
    rw [h0] at hw
    cases hw
    exact hm rfl
  · have h1 : (processVideo db0 1 7 (Except.ok md0) false).2.get? 1 =
        some (Action.emitP 7 1 0 "Initializing" (msgOnly "Video processing started")) := rfl
    rw [h1] at hw
    simp at hw
  · have h2 : (processVideo db0 1 7 (Except.ok md0) false).2.get? 2 =
        some (Action.emitP 7 1 10 "Extracting Metadata"
          (msgOnly "Analyzing video file...")) := rfl
    rw [h2] at hw
    simp at hw

/-- C2 witness for the amended theorem, at a concrete successful run. -/
theorem broadcast_persistence_order_witness :
    db0 1 = some cv0 ∧
    (processVideo db0 1 7 (Except.ok md0) false).2.takeWhile
        (fun a => !(isEmitAction a)) =
      [Action.persist { cv0 with processingStatus := ProcessingStatus.PROCESSING }] ∧
    (persistsBefore (processVideo db0 1 7 (Except.ok md0) false).2
        isCompletionAnnounce).map Video.processingStatus =
      [ProcessingStatus.PROCESSING, ProcessingStatus.COMPLETED] := by
  have h := broadcast_persistence_order db0 1 7 (Except.ok md0) false cv0 rfl
  have hterm : runTerminal cv0 false = ProcessingStatus.COMPLETED := by decide
  refine ⟨rfl, h.1, ?_⟩
  have h2 := (h.2.1 md0 rfl).1
  rw [hterm] at h2
  exact h2

/-- C5: for a fetch whose tenant/role-scoped lookup succeeds, a FLAGGED
artifact yields the 403 permission-denied response surfacing the status and
its detail, a PENDING or PROCESSING artifact yields the 403 "still
processing" response, and a 200/206 body is returned only when the status is
COMPLETED. -/
theorem status_gate_correct (db : DB) (fsys : FS) (u : Principal) (videoId : Nat)
    (rangeHeader : Option String) (video : Video)
    (hq : findVideoQuery db u videoId = some video) :
    (video.processingStatus = ProcessingStatus.FLAGGED →
      streamVideo db fsys u videoId rangeHeader =
        Response.error 403 ⟨false, "This video has been flagged and cannot be streamed",
          some ProcessingStatus.FLAGGED, video.processingError⟩) ∧
    (video.processingStatus = ProcessingStatus.PENDING ∨
     video.processingStatus = ProcessingStatus.PROCESSING →
      streamVideo db fsys u videoId rangeHeader =
        Response.error 403 ⟨false, "Video is still processing",
          some video.processingStatus, none⟩) ∧
    (respStatus (streamVideo db fsys u videoId rangeHeader) = 200 ∨
     respStatus (streamVideo db fsys u videoId rangeHeader) = 206 →
      video.processingStatus = ProcessingStatus.COMPLETED) := by
  refine ⟨?_, ?_, ?_⟩
  · intro h
    simp [streamVideo, hq, h]
  · rintro (h | h) <;> simp [streamVideo, hq, h]
  · intro h
    by_contra hC
    by_cases hF : video.processingStatus = ProcessingStatus.FLAGGED <;>
      simp [streamVideo, hq, hF, hC, respStatus] at h

/-- C5 witness at a concrete FLAGGED artifact and a concrete PROCESSING
artifact. -/
theorem status_gate_correct_witness :
    findVideoQuery dbFlag cu0 1 = some cvFlag ∧
    streamVideo dbFlag fs0 cu0 1 none =
      Response.error 403 ⟨false, "This video has been flagged and cannot be streamed",
        some ProcessingStatus.FLAGGED,
        some "Sensitivity keyword detected: \"flag\""⟩ ∧
    streamVideo dbProc fs0 cu0 1 none =
      Response.error 403 ⟨false, "Video is still processing",
        some ProcessingStatus.PROCESSING, none⟩ := by
  refine ⟨rfl, ?_, ?_⟩
  · exact (status_gate_correct dbFlag fs0 cu0 1 none cvFlag rfl).1 rfl
  · exact (status_gate_correct dbProc fs0 cu0 1 none cvProc rfl).2.1 (Or.inr rfl)

/-- C6: fetching an artifact of another tenant, and a VIEWER fetching a
private artifact they do not own, both produce exactly the response produced
for a nonexistent id — the same 404 status and body, so neither status code
nor body leaks existence. -/
theorem no_existence_leak (db : DB) (fsys : FS) (u : Principal) (videoId : Nat)
    (rangeHeader : Option String) :
    (db videoId = none →
      streamVideo db fsys u videoId rangeHeader = notFoundResponse) ∧
    (∀ v, db videoId = some v → v.tenantId ≠ u.tenantId →
      streamVideo db fsys u videoId rangeHeader = notFoundResponse) ∧
    (∀ v, db videoId = some v → u.role = Role.VIEWER → v.isPublic = false →
      v.uploadedBy ≠ u.id →
      streamVideo db fsys u videoId rangeHeader = notFoundResponse) := by
  refine ⟨?_, ?_, ?_⟩
  · intro h
    simp [streamVideo, findVideoQuery, h]
  · intro v hv hne
    simp [streamVideo, findVideoQuery, hv, hne]
  · intro v hv hrole hpub hown
    simp [streamVideo, findVideoQuery, hv, hrole, hpub, hown]

/-- C6 witness: a cross-tenant EDITOR, a VIEWER on a private video they do
not own, and a nonexistent id all receive the identical 404 response. -/
theorem no_existence_leak_witness :
    streamVideo db0 fs0 cuOther 1 none = notFoundResponse ∧
    streamVideo (fun j => if j = 1 then some { cv0 with isPublic := false } else none)
        fs0 cuViewer 1 none = notFoundResponse ∧
    streamVideo db0 fs0 cu0 2 none = notFoundResponse := by
  refine ⟨?_, ?_, ?_⟩
  · exact (no_existence_leak db0 fs0 cuOther 1 none).2.1 cv0 rfl (by decide)
  · exact (no_existence_leak (fun j => if j = 1 then some { cv0 with isPublic := false } else none)
      fs0 cuViewer 1 none).2.2 { cv0 with isPublic := false } rfl rfl rfl (by decide)
  · exact (no_existence_leak db0 fs0 cu0 2 none).1 rfl

/-- C4: on a COMPLETED artifact whose file holds `content`: with no Range
header the response is the full-content 200 response (total length,
`Accept-Ranges: bytes`); with a Range header parsing to `start-end` with
`0 ≤ start ≤ end < total` (the end defaulting to `total - 1` when omitted),
the response is 206 with `Content-Range: bytes start-end/total` and a body of
exactly `end - start + 1` bytes covering the inclusive span. -/
theorem range_serving_correct (db : DB) (fsys : FS) (u : Principal) (videoId : Nat)
    (video : Video) (content : List Nat)
    (hq : findVideoQuery db u videoId = some video)
    (hst : video.processingStatus = ProcessingStatus.COMPLETED)
    (hf : fsys video.filePath = some content) :
    streamVideo db fsys u videoId none =
      Response.ok200 content.length (mimeOrDefault video.mimeType) content ∧
    (∀ range s e,
      parseRangeParts range content.length = (some s, some e) →
      0 ≤ s → s ≤ e → e < (content.length : Int) →
      streamVideo db fsys u videoId (some range) =
        Response.range206 s e content.length (e - s + 1) (mimeOrDefault video.mimeType)
          ((content.drop s.toNat).take (e - s + 1).toNat) ∧
      (bodyBytes (streamVideo db fsys u videoId (some range))).length =
        (e - s + 1).toNat) := by
  constructor
  · simp [streamVideo, hq, hst, hf]
  · intro range s e hp h0 hse hlt
    have hs' : ¬ ((content.length : Int) ≤ s) := by omega
    have he' : ¬ ((content.length : Int) ≤ e) := by omega
    have hresp : streamVideo db fsys u videoId (some range) =
        Response.range206 s e content.length (e - s + 1) (mimeOrDefault video.mimeType)
          ((content.drop s.toNat).take (e - s + 1).toNat) := by
      simp [streamVideo, hq, hst, hf, hp, jsGE, hs', he', h0, hse]
    refine ⟨hresp, ?_⟩
    rw [hresp]
    simp [bodyBytes, List.length_take, List.length_drop]
    omega

set_option maxRecDepth 8000 in
/-- C4 witness: the request `bytes=0-99` on the 1000-byte COMPLETED artifact
returns 206 with `Content-Range: bytes 0-99/1000` and a 100-byte body, and
the request with no Range header returns the full 1000-byte 200 response. -/
theorem range_serving_correct_witness :
    streamVideo dbDone fs0 cu0 1 (some "bytes=0-99") =
      Response.range206 0 99 (List.replicate 1000 (0 : Nat)).length ((99 : Int) - 0 + 1)
        (mimeOrDefault cvDone.mimeType)
        (((List.replicate 1000 (0 : Nat)).drop (0 : Int).toNat).take
          ((99 : Int) - 0 + 1).toNat) ∧
    (bodyBytes (streamVideo dbDone fs0 cu0 1 (some "bytes=0-99"))).length =
      ((99 : Int) - 0 + 1).toNat ∧
    streamVideo dbDone fs0 cu0 1 none =
      Response.ok200 (List.replicate 1000 (0 : Nat)).length
        (mimeOrDefault cvDone.mimeType) (List.replicate 1000 (0 : Nat)) := by
  have h := range_serving_correct dbDone fs0 cu0 1 cvDone (List.replicate 1000 0)
    rfl rfl rfl
  have h2 := h.2 "bytes=0-99" 0 99 (by decide) (by decide) (by decide) (by decide)
  exact ⟨h2.1, h2.2, h.1⟩

set_option maxRecDepth 8000 in
/-- C3 falsified as stated: the in-bounds but inverted range `bytes=5-2` on a
1000-byte COMPLETED artifact does not return 416 — the validation only
checks `start >= size || end >= size`, so the request reaches the
read-stream constructor, which throws, and the handler returns the 500 error
response. -/
theorem start_gt_end_not_416_cex :
    findVideoQuery dbDone cu0 1 = some cvDone ∧
    cvDone.processingStatus = ProcessingStatus.COMPLETED ∧
    parseRangeParts "bytes=5-2" 1000 = (some 5, some 2) ∧
    streamVideo dbDone fs0 cu0 1 (some "bytes=5-2") =
      Response.error 500 ⟨false, "Error streaming video", none, none⟩ ∧
    respStatus (streamVideo dbDone fs0 cu0 1 (some "bytes=5-2")) ≠ 416 := by
  refine ⟨rfl, rfl, by decide, by decide, by decide⟩

/-- C3 amended: with a Range header on a COMPLETED artifact, 416 is returned
exactly when the parsed numeric start or end is `≥` the total size (NaN
comparisons are false in JS, so malformed parts never satisfy this check);
a header whose parts parse to NaN, or with `start > end`, instead makes the
read-stream constructor throw and yields the 500 error response; the
full-content 200 response is never returned when a Range header is present;
and a 416 response serves no content bytes. -/
theorem range_rejection_behavior (db : DB) (fsys : FS) (u : Principal) (videoId : Nat)
    (video : Video) (content : List Nat) (range : String)
    (hq : findVideoQuery db u videoId = some video)
    (hst : video.processingStatus = ProcessingStatus.COMPLETED)
    (hf : fsys video.filePath = some content) :
    ((jsGE (parseRangeParts range content.length).1 content.length ||
      jsGE (parseRangeParts range content.length).2 content.length) = true →
      streamVideo db fsys u videoId (some range) =
        Response.error 416 ⟨false, "Range Not Satisfiable", none, none⟩) ∧
    ((jsGE (parseRangeParts range content.length).1 content.length ||
      jsGE (parseRangeParts range content.length).2 content.length) = false →
      (∀ s e, parseRangeParts range content.length = (some s, some e) →
        ¬ (0 ≤ s ∧ s ≤ e) →
        streamVideo db fsys u videoId (some range) =
          Response.error 500 ⟨false, "Error streaming video", none, none⟩) ∧
      ((parseRangeParts range content.length).1 = none ∨
       (parseRangeParts range content.length).2 = none →
        streamVideo db fsys u videoId (some range) =
          Response.error 500 ⟨false, "Error streaming video", none, none⟩)) ∧
    respStatus (streamVideo db fsys u videoId (some range)) ≠ 200 ∧
    (respStatus (streamVideo db fsys u videoId (some range)) = 416 →
      bodyBytes (streamVideo db fsys u videoId (some range)) = []) := by
  refine ⟨?_, ?_, ?_, ?_⟩
  · intro h
    simp [streamVideo, hq, hst, hf, h]
  · intro h
    constructor
    · intro s e hp hneg
      rw [hp] at h
      simp [jsGE] at h
      simp [streamVideo, hq, hst, hf, hp, jsGE, h.1, h.2, hneg]
    · intro hn
      rcases hp : parseRangeParts range content.length with ⟨os, oe⟩
      rw [hp] at h hn
      rcases os with _ | s1 <;> rcases oe with _ | e2
      · simp [streamVideo, hq, hst, hf, hp, jsGE]
      · simp [jsGE] at h
        simp [streamVideo, hq, hst, hf, hp, jsGE, h]
      · simp [jsGE] at h
        simp [streamVideo, hq, hst, hf, hp, jsGE, h]
      · simp at hn
  · cases hcond : (jsGE (parseRangeParts range content.length).1 content.length ||
        jsGE (parseRangeParts range content.length).2 content.length) with
    | true => simp [streamVideo, hq, hst, hf, hcond, respStatus]
    | false =>
      rcases hp : parseRangeParts range content.length with ⟨os, oe⟩
      rw [hp] at hcond
      rcases os with _ | s1 <;> rcases oe with _ | e2
      · simp [streamVideo, hq, hst, hf, hp, hcond, jsGE, respStatus]
      · simp [jsGE] at hcond
        simp [streamVideo, hq, hst, hf, hp, jsGE, respStatus, hcond.not_le]
      · simp [jsGE] at hcond
        simp [streamVideo, hq, hst, hf, hp, jsGE, respStatus, hcond.not_le]
      · by_cases hok : (0 : Int) ≤ s1 ∧ s1 ≤ e2 <;>
          simp [streamVideo, hq, hst, hf, hp, hcond, hok, respStatus]
  · intro h416
    cases hr : streamVideo db fsys u videoId (some range) with
    | error s b => rfl
    | ok200 l t b =>
      rw [hr] at h416
      simp [respStatus] at h416
    | range206 s e t l m b =>
      rw [hr] at h416
      simp [respStatus] at h416

set_option maxRecDepth 8000 in
/-- C3 witness: the spec's own example `bytes=2000-2100` on the 1000-byte
COMPLETED artifact returns 416 with no content bytes, and a present Range
header never yields the 200 full-content response. -/
theorem range_rejection_behavior_witness :
    streamVideo dbDone fs0 cu0 1 (some "bytes=2000-2100") =
      Response.error 416 ⟨false, "Range Not Satisfiable", none, none⟩ ∧
    respStatus (streamVideo dbDone fs0 cu0 1 (some "bytes=2000-2100")) ≠ 200 := by
  have h := range_rejection_behavior dbDone fs0 cu0 1 cvDone (List.replicate 1000 0)
    "bytes=2000-2100" rfl rfl rfl
  exact ⟨h.1 (by decide), h.2.2.1⟩

/-- C10 falsified as stated: `getVideoById` — a read operation — increments
the view counter and saves on every successful lookup with no status check,
so it mutates an artifact that is still PENDING (not yet terminal). -/
theorem view_increment_before_terminal_cex :
    cv0.processingStatus = ProcessingStatus.PENDING ∧
    (getVideoById db0 cu0 1).1 1 = some { cv0 with views := 1 } ∧
    (getVideoById db0 cu0 1).1 1 ≠ db0 1 := by
  refine ⟨rfl, by decide, by decide⟩

/-- C10 amended: the writers to an artifact record are the pipeline
coordinator, the view-counter increment performed by `getVideoById` on every
successful read (regardless of status, terminal or not), and the ADMIN-only
status-correction endpoint; `getVideoById`'s only change is `views + 1`, a
failed lookup writes nothing, a non-ADMIN cannot write through the status
endpoint, and every one of these writers touches only the target record. -/
theorem writer_discipline (db : DB) (u : Principal) (videoId tenantId : Nat)
    (probe : Except String FFProbeMeta) (randomFlag : Bool)
    (newStatus : ProcessingStatus) (newError : Option String) :
    (∀ v, findVideoQuery db u videoId = some v →
      (getVideoById db u videoId).1 videoId = some { v with views := v.views + 1 } ∧
      ∀ j, j ≠ videoId → (getVideoById db u videoId).1 j = db j) ∧
    (findVideoQuery db u videoId = none → (getVideoById db u videoId).1 = db) ∧
    (¬ (u.role = Role.ADMIN) →
      (updateProcessingStatus db u videoId newStatus newError).1 = db) ∧
    (∀ j, j ≠ videoId →
      (processVideo db videoId tenantId probe randomFlag).1 j = db j) ∧
    (∀ j, j ≠ videoId →
      (updateProcessingStatus db u videoId newStatus newError).1 j = db j) := by
  refine ⟨?_, ?_, ?_, ?_, ?_⟩
  · intro v hv
    constructor
    · simp [getVideoById, hv, dbSave]
    · intro j hj
      simp [getVideoById, hv, dbSave, hj]
  · intro hv
    simp [getVideoById, hv]
  · intro hrole
    simp [updateProcessingStatus, hrole]
  · intro j hj
    cases hdb : db videoId with
    | none =>
      cases probe <;> simp [processVideo, processVideoTry, catchHandler, hdb]
    | some video =>
      cases probe with
      | error m =>
        simp [processVideo, processVideoTry, catchHandler, hdb, dbSave, hj]
      | ok md =>
        cases hs : (simulateAISensitivityScan video.originalFilename randomFlag).status with
        | FLAGGED =>
          simp [processVideo, processVideoTry, hdb, hs, dbSave, hj]
        | SAFE =>
          simp [processVideo, processVideoTry, hdb, hs, dbSave, hj]
  · intro j hj
    by_cases hrole : u.role = Role.ADMIN
    · cases hdb : db videoId with
      | none => simp [updateProcessingStatus, hrole, hdb]
      | some v =>
        by_cases ht : v.tenantId == u.tenantId <;>
          simp [updateProcessingStatus, hrole, hdb, ht, dbSave, hj]
    · simp [updateProcessingStatus, hrole]

/-- C10 witness: a concrete successful read increments only the view counter
of the target record and leaves other keys untouched. -/
theorem writer_discipline_witness :
    (getVideoById db0 cu0 1).1 1 = some { cv0 with views := cv0.views + 1 } ∧
    (getVideoById db0 cu0 1).1 2 = db0 2 ∧
    (updateProcessingStatus db0 cuViewer 1 ProcessingStatus.COMPLETED none).1 = db0 := by
  have h := writer_discipline db0 cu0 1 7 (Except.ok md0) false
    ProcessingStatus.COMPLETED none
  have h' := writer_discipline db0 cuViewer 1 7 (Except.ok md0) false
    ProcessingStatus.COMPLETED none
  exact ⟨(h.1 cv0 rfl).1, (h.1 cv0 rfl).2 2 (by decide), h'.2.2.1 (by decide)⟩

end VideoSaaS
